import Mathlib

/-!
Verification of the batch-recommendation accumulation flow of the
piliseed frontend.  The definitions below are a shallow embedding of the
TypeScript handlers in `frontend/src/pages/CropsPage.tsx` and of
`handleLoadMore` / `fetchSessionDetails` from
`frontend/src/pages/HistoryDetailPage.tsx` (reproduced in the repository
implementation guide), together with the exclusion-sentinel formatting
performed by the backend endpoint `auto_generate_recommendations`.
Numeric sensor values are carried opaquely; they are modelled as
rationals because the flow never computes with them, only forwards them.
-/

set_option autoImplicit false

namespace Piliseed

/-- The nine named scores of the `scores` field of the
`CropRecommendation` interface in `CropsPage.tsx`. -/
structure CropScores where
  overall_score : Rat
  confidence_pct : Rat
  env_score : Rat
  econ_score : Rat
  time_fit_score : Rat
  season_score : Rat
  labor_score : Rat
  risk_score : Rat
  market_score : Rat
deriving Repr, DecidableEq

/-- One crop recommendation record, mirroring the `CropRecommendation`
interface of `CropsPage.tsx`.  The dynamically typed narrative payloads
(`growth_requirements`, ..., `risk_assessment`) are opaque to the flow
and carried as strings. -/
structure CropRecommendation where
  crop : String
  searchable_name : Option String := none
  image_url : Option String := none
  scientific_name : String := ""
  category : String := ""
  scores : CropScores := ⟨0, 0, 0, 0, 0, 0, 0, 0, 0⟩
  growth_requirements : String := ""
  tolerances : String := ""
  management : String := ""
  economics : String := ""
  market_strategy : String := ""
  planting_schedule : String := ""
  risk_assessment : String := ""
  reasoning : String := ""
  is_top_3 : Bool := false
deriving Repr, DecidableEq

/-- The four scalar environmental readings of a sensor
(`SensorData` in the frontend, `HardwareSensorData` in the backend). -/
structure SensorData where
  soil_moisture_pct : Rat
  temperature_c : Rat
  humidity_pct : Rat
  light_lux : Rat
deriving Repr, DecidableEq

/-- The `fetch` notion of a successful HTTP status: `response.ok` is
true exactly when the status lies in the 200..299 range. -/
def statusOk (status : Nat) : Bool :=
  200 ≤ status && status ≤ 299

/-- Outcome of one `fetch` call, as observed by the handler: either the
promise rejected (network error, or an exception thrown while handling
the response), or a response arrived with an HTTP status and a parsed
JSON body whose `recommendations` field may be present or absent. -/
inductive FetchOutcome where
  | fetchError (msg : String)
  | response (status : Nat) (recs : Option (List CropRecommendation))
deriving Repr, DecidableEq

/-- Component state of `CropsPage`: the route parameter `id`, the
`recommendations`, `isLoading`, `isGenerating` and `error` state hooks. -/
structure CropsPageState where
  id : Option String
  recommendations : Option (List CropRecommendation)
  isLoading : Bool
  isGenerating : Bool
  error : Option String
deriving Repr, DecidableEq

/-- `checkExistingRecommendations` from `CropsPage.tsx`: GET the latest
recommendations for the sensor.  On an ok response with a non-empty
`recommendations` array the collection is set; on an ok response without
one, on a 404, on any other status (the thrown error is caught), and on
a network error, the collection is set to null.  The `error` hook is
never touched; `isLoading` is cleared in the `finally` block.  When the
route parameter is absent the handler returns before issuing a fetch. -/
def checkExistingRecommendations (s : CropsPageState) (outcome : FetchOutcome) :
    CropsPageState :=
  match s.id with
  | none => s
  | some _ =>
    match outcome with
    | .fetchError _ => { s with recommendations := none, isLoading := false }
    | .response status recs =>
      if statusOk status then
        match recs with
        | some l =>
          if l.length > 0 then
            { s with recommendations := some l, isLoading := false }
          else
            { s with recommendations := none, isLoading := false }
        | none => { s with recommendations := none, isLoading := false }
      else if status == 404 then
        { s with recommendations := none, isLoading := false }
      else
        { s with recommendations := none, isLoading := false }

/-- `handleFormSubmit` from `CropsPage.tsx`: POST the farmer form to the
generation endpoint.  On a non-ok response the handler throws and the
catch block records an error message; on a rejected fetch the thrown
message is recorded; in both failure cases the collection is left as it
was.  On success the collection is replaced by the `recommendations`
field of the response body.  `isGenerating` is cleared in `finally`. -/
def handleFormSubmit (s : CropsPageState) (outcome : FetchOutcome) :
    CropsPageState :=
  match s.id with
  | none => s
  | some _ =>
    match outcome with
    | .fetchError msg => { s with error := some msg, isGenerating := false }
    | .response status recs =>
      if statusOk status then
        { s with recommendations := recs, error := none, isGenerating := false }
      else
        { s with error := some "Failed to generate recommendations",
                 isGenerating := false }

/-- Derivation of the exclusion list from the current collection, as in
`const alreadyGenerated = recommendations.map(crop => crop.crop)`. -/
def exclusionList (recs : List CropRecommendation) : List String :=
  recs.map (·.crop)

/-- The JSON body of the POST against
`/recommendations/hardware/\x7bsensor_id\x7d/readings`: the four sensor
readings and the `already_generated` name list. -/
structure HardwarePayload where
  soil_moisture_pct : Rat
  temperature_c : Rat
  humidity_pct : Rat
  light_lux : Rat
  already_generated : List String
deriving Repr, DecidableEq

/-- One outbound HTTP request issued by the load-more flow: the
generation POST, the session-details GET issued by
`fetchSessionDetails`, or the sensor-data GET issued by
`fetchSessionDetails` when the session names a sensor. -/
inductive OutboundRequest where
  | postHardwareReadings (sensorId : String) (payload : HardwarePayload)
  | getSessionDetails (sessionId : String)
  | getSensorInfo (sensorId : String)
deriving Repr, DecidableEq

/-- Whether an outbound request is the generation POST. -/
def OutboundRequest.isGeneratorCall : OutboundRequest → Bool
  | .postHardwareReadings _ _ => true
  | _ => false

/-- Whether an outbound request is a read-only GET. -/
def OutboundRequest.isReadOnlyGet : OutboundRequest → Bool
  | .postHardwareReadings _ _ => false
  | _ => true

/-- Component state of the history detail page around `handleLoadMore`:
the route parameter `sessionId`, the `sensorId` and `sensorData` taken
from the fetched session, the displayed `recommendations`, and the
`error` and `isLoadingMore` hooks. -/
structure LoadMoreState where
  sessionId : String
  sensorId : Option String
  sensorData : Option SensorData
  recommendations : List CropRecommendation
  error : Option String
  isLoadingMore : Bool
deriving Repr, DecidableEq

/-- The session record returned by the session-details GET: its
`sensor_id` field and its stored `recommendations`. -/
structure SessionRecord where
  sensor_id : Option String
  recommendations : List CropRecommendation
deriving Repr, DecidableEq

/-- Outcome of the generation POST as observed inside the try block:
either the fetch (or the subsequent refetch) threw, or a response
arrived with an HTTP status; on success the backend has generated and
stored `batch`, the new crops appended to the session. -/
inductive GenOutcome where
  | fetchError (msg : String)
  | response (status : Nat) (batch : List CropRecommendation)
deriving Repr, DecidableEq

/-- Modelled from the spec: the backend endpoint behind
`/recommendations/hardware/\x7bsensor_id\x7d/readings` is not under
`src/`; per the spec and the repository implementation guide it appends
the newly generated batch to the stored session, so the subsequent
session refetch returns the previous collection followed by the new
batch, in the order returned, with the session still naming the same
sensor. -/
def sessionAfterSuccess (s : LoadMoreState) (batch : List CropRecommendation) :
    SessionRecord :=
  { sensor_id := s.sensorId, recommendations := s.recommendations ++ batch }

/-- `fetchSessionDetails` from the history detail page: one GET for the
session details sets the displayed recommendations from the fetched
session; then, when the fetched session names a sensor, one further GET
for that sensor updates `sensorData` with its `current_sensors` when it
succeeds (a failed sensor fetch is only logged).  Returns the updated
state and the requests issued. -/
def fetchSessionDetails (s : LoadMoreState) (sess : SessionRecord)
    (sensorFetch : Option SensorData) : LoadMoreState × List OutboundRequest :=
  let s1 := { s with recommendations := sess.recommendations }
  match sess.sensor_id, sensorFetch with
  | some sid, some info =>
    ({ s1 with sensorData := some info },
     [.getSessionDetails s.sessionId, .getSensorInfo sid])
  | some sid, none =>
    (s1, [.getSessionDetails s.sessionId, .getSensorInfo sid])
  | none, _ => (s1, [.getSessionDetails s.sessionId])

/-- The message recorded by the local guard of `handleLoadMore`. -/
def loadMoreGuardMessage : String :=
  "Cannot load more recommendations: sensor data not available"

/-- The message the handler throws on a non-ok generation response. -/
def loadMoreFailMessage : String :=
  "Failed to generate more recommendations"

/-- The part of `handleLoadMore` before the await: the guard
`if (!sensorId || !sensorData)` records an error and stops without any
request; otherwise `isLoadingMore` is set, the error is cleared, the
exclusion list is derived from the displayed recommendations, and the
generation POST is issued with the four sensor readings and the
exclusion list. -/
def loadMoreBegin (s : LoadMoreState) : LoadMoreState × Option OutboundRequest :=
  match s.sensorId, s.sensorData with
  | some sid, some sd =>
    ({ s with isLoadingMore := true, error := none },
     some (.postHardwareReadings sid
       { soil_moisture_pct := sd.soil_moisture_pct,
         temperature_c := sd.temperature_c,
         humidity_pct := sd.humidity_pct,
         light_lux := sd.light_lux,
         already_generated := exclusionList s.recommendations }))
  | _, _ =>
    ({ s with error := some loadMoreGuardMessage }, none)

/-- The part of `handleLoadMore` after the await: a rejected fetch is
caught and its message recorded; a non-ok response makes the handler
throw `Failed to generate more recommendations`, which the catch block
records; an ok response triggers `fetchSessionDetails`, which refetches
the session the backend appended to.  `isLoadingMore` is cleared in the
`finally` block.  Returns the updated state and the further requests
issued. -/
def loadMoreFinish (s : LoadMoreState) (outcome : GenOutcome)
    (sensorFetch : Option SensorData) : LoadMoreState × List OutboundRequest :=
  match outcome with
  | .fetchError msg =>
    ({ s with error := some msg, isLoadingMore := false }, [])
  | .response status batch =>
    if statusOk status then
      let refetched := fetchSessionDetails s (sessionAfterSuccess s batch) sensorFetch
      ({ refetched.1 with isLoadingMore := false }, refetched.2)
    else
      ({ s with error := some loadMoreFailMessage, isLoadingMore := false }, [])

/-- The whole of `handleLoadMore`, composing the two phases: the state
after one invocation, together with the list of outbound requests it
issued, in order. -/
def handleLoadMore (s : LoadMoreState) (outcome : GenOutcome)
    (sensorFetch : Option SensorData) : LoadMoreState × List OutboundRequest :=
  match loadMoreBegin s with
  | (s1, none) => (s1, [])
  | (s1, some req) =>
    let fin := loadMoreFinish s1 outcome sensorFetch
    (fin.1, req :: fin.2)

/-- The prompt-side formatting of the exclusion list in the backend
endpoint `auto_generate_recommendations`: a non-empty list becomes the
newline-joined `- name` lines, an empty (or omitted) list becomes the
first-batch sentinel text. -/
def cropsListText (already_generated : List String) : String :=
  if already_generated.length > 0 then
    String.intercalate "\n" (already_generated.map (fun c => "- " ++ c))
  else
    "None yet (this is the first batch)"

/-- Whether a generation outcome is a failure as seen by the handler:
a rejected fetch, or a response outside the ok range. -/
def genFailure : GenOutcome → Bool
  | .fetchError _ => true
  | .response status _ => !statusOk status

/-- Whether a hydration outcome is an ok response carrying a non-empty
`recommendations` array — the only case in which
`checkExistingRecommendations` keeps a collection. -/
def hydrationNonEmptySuccess : FetchOutcome → Bool
  | .fetchError _ => false
  | .response status recs =>
    statusOk status &&
      (match recs with
       | some l => decide (l.length > 0)
       | none => false)

/-! Concrete sample data used by the witness theorems. -/

/-- A sample score vector. -/
def sampleScores : CropScores :=
  ⟨92/100, 70, 8/10, 7/10, 9/10, 8/10, 6/10, 3/10, 7/10⟩

/-- A sample crop record named Tomato. -/
def tomatoRec : CropRecommendation :=
  { crop := "Tomato", category := "Vegetables", scores := sampleScores }

/-- A sample crop record named Pechay. -/
def pechayRec : CropRecommendation :=
  { crop := "Pechay", category := "Vegetables" }

/-- A sample crop record named Okra. -/
def okraRec : CropRecommendation :=
  { crop := "Okra", category := "Vegetables" }

/-- A sample crop record named Ampalaya. -/
def ampalayaRec : CropRecommendation :=
  { crop := "Ampalaya", category := "Vegetables" }

/-- A sample crop record named Kangkong. -/
def kangkongRec : CropRecommendation :=
  { crop := "Kangkong", category := "Vegetables" }

/-- A sample sensor reading (45.5, 28.3, 72.0, 15000.0). -/
def sampleSensor : SensorData :=
  { soil_moisture_pct := 91/2, temperature_c := 283/10,
    humidity_pct := 72, light_lux := 15000 }

/-- A sample history-detail state with two displayed crops. -/
def sampleState : LoadMoreState :=
  { sessionId := "session-1", sensorId := some "SENSOR001",
    sensorData := some sampleSensor,
    recommendations := [tomatoRec, pechayRec],
    error := none, isLoadingMore := false }

/-- The sample state with no sensor reading available. -/
def noSensorState : LoadMoreState :=
  { sampleState with sensorData := none }

/-- A sample crops-page state during hydration. -/
def sampleCropsState : CropsPageState :=
  { id := some "SENSOR001", recommendations := none,
    isLoading := true, isGenerating := false, error := none }

/-! Claim theorems. -/

/-- C1: Append-only growth.  For every collection and every batch
delivered by a successful generator call, the collection after
`handleLoadMore` has length old-length plus batch-length, its first
old-length entries are the old entries in the same order, and the
remaining entries are the batch in the order returned. -/
theorem requestNextBatch_append_only (s : LoadMoreState)
    (batch : List CropRecommendation) (status : Nat) (sf : Option SensorData)
    (sid : String) (sd : SensorData)
    (hsid : s.sensorId = some sid) (hsd : s.sensorData = some sd)
    (hok : statusOk status = true) :
    ((handleLoadMore s (.response status batch) sf).1).recommendations.length
      = s.recommendations.length + batch.length ∧
    ((handleLoadMore s (.response status batch) sf).1).recommendations.take
      s.recommendations.length = s.recommendations ∧
    ((handleLoadMore s (.response status batch) sf).1).recommendations.drop
      s.recommendations.length = batch := by
  cases sf <;>
    simp [handleLoadMore, loadMoreBegin, loadMoreFinish, fetchSessionDetails,
      sessionAfterSuccess, hsid, hsd, hok]

/-- C1 witness: the sample two-crop state successfully receives a
two-crop batch and ends with the four crops in order. -/
theorem requestNextBatch_append_only_example :
    ((handleLoadMore sampleState (.response 200 [okraRec, ampalayaRec]) none).1).recommendations.length
      = sampleState.recommendations.length + [okraRec, ampalayaRec].length ∧
    ((handleLoadMore sampleState (.response 200 [okraRec, ampalayaRec]) none).1).recommendations.take
      sampleState.recommendations.length = sampleState.recommendations ∧
    ((handleLoadMore sampleState (.response 200 [okraRec, ampalayaRec]) none).1).recommendations.drop
      sampleState.recommendations.length = [okraRec, ampalayaRec] :=
  requestNextBatch_append_only sampleState [okraRec, ampalayaRec] 200 none
    "SENSOR001" sampleSensor rfl rfl (by decide)

/-- C2: Atomic failure.  If the generator call fails (rejected fetch or
non-ok status), the handler records an error message and the displayed
collection is exactly the previous one: no partial merge, nothing
discarded. -/
theorem requestNextBatch_atomic_failure (s : LoadMoreState) (o : GenOutcome)
    (sf : Option SensorData) (sid : String) (sd : SensorData)
    (hsid : s.sensorId = some sid) (hsd : s.sensorData = some sd)
    (hfail : genFailure o = true) :
    ((handleLoadMore s o sf).1).recommendations = s.recommendations ∧
    (∃ m, ((handleLoadMore s o sf).1).error = some m) := by
  cases o with
  | fetchError msg =>
    refine ⟨?_, msg, ?_⟩ <;>
      simp [handleLoadMore, loadMoreBegin, loadMoreFinish, hsid, hsd]
  | response status batch =>
    have hnot : statusOk status = false := by
      simpa [genFailure] using hfail
    refine ⟨?_, loadMoreFailMessage, ?_⟩ <;>
      simp [handleLoadMore, loadMoreBegin, loadMoreFinish, hsid, hsd, hnot]

/-- C2 witness: a 500 response leaves the sample collection untouched
and records an error. -/
theorem requestNextBatch_atomic_failure_example :
    ((handleLoadMore sampleState (.response 500 [okraRec]) none).1).recommendations
      = sampleState.recommendations ∧
    (∃ m, ((handleLoadMore sampleState (.response 500 [okraRec]) none).1).error = some m) :=
  requestNextBatch_atomic_failure sampleState (.response 500 [okraRec]) none
    "SENSOR001" sampleSensor rfl rfl (by decide)

/-- C3: Exclusion-list derivation.  The exclusion list of a collection
has the same length as the collection, its entry at each index is the
name of the collection entry at that index, and deriving it twice from
the same collection yields identical results. -/
theorem exclusionList_ordered_names (C : List CropRecommendation) :
    (exclusionList C).length = C.length ∧
    (∀ i : Nat, (exclusionList C).get? i = (C.get? i).map CropRecommendation.crop) ∧
    exclusionList C = exclusionList C := by
  refine ⟨by simp [exclusionList], fun i => by simp [exclusionList], rfl⟩

/-- C4: First-call sentinel.  For an empty collection the prompt-side
exclusion text is the explicit sentinel, which is distinct both from
the empty string (the join of an empty name list) and from the text
produced for a one-element collection named Tomato, while the latter
contains the name Tomato. -/
theorem first_call_sentinel (r : CropRecommendation) (hr : r.crop = "Tomato") :
    cropsListText (exclusionList []) = "None yet (this is the first batch)" ∧
    cropsListText (exclusionList []) ≠ "" ∧
    (∃ pre post, cropsListText (exclusionList [r]) = pre ++ "Tomato" ++ post) ∧
    cropsListText (exclusionList []) ≠ cropsListText (exclusionList [r]) := by
  refine ⟨rfl, by decide, ⟨"- ", "", ?_⟩, ?_⟩ <;>
    · simp [cropsListText, exclusionList, hr]
      decide

/-- C4 witness: instantiated at the sample Tomato record. -/
theorem first_call_sentinel_example :
    cropsListText (exclusionList []) = "None yet (this is the first batch)" ∧
    cropsListText (exclusionList []) ≠ "" ∧
    (∃ pre post, cropsListText (exclusionList [tomatoRec]) = pre ++ "Tomato" ++ post) ∧
    cropsListText (exclusionList []) ≠ cropsListText (exclusionList [tomatoRec]) :=
  first_call_sentinel tomatoRec rfl

/-- C5 counterexample: the claim that one invocation issues exactly one
outbound request with no additional network calls is false: on the
sample state, a successful call issues three requests (the generation
POST, the session refetch GET, and the sensor-data GET). -/
theorem single_request_refuted :
    ((handleLoadMore sampleState (.response 200 [okraRec]) (some sampleSensor)).2).length = 3 ∧
    ¬ ((handleLoadMore sampleState (.response 200 [okraRec]) (some sampleSensor)).2).length = 1 := by
  decide

/-- C5 amended: every invocation that passes the local guard issues
exactly one request to the generator, namely the first request, which
carries the four sensor readings and the exclusion list of the current
collection; every further request of the invocation is a read-only
GET. -/
theorem one_generator_request (s : LoadMoreState) (o : GenOutcome)
    (sf : Option SensorData) (sid : String) (sd : SensorData)
    (hsid : s.sensorId = some sid) (hsd : s.sensorData = some sd) :
    (((handleLoadMore s o sf).2).filter OutboundRequest.isGeneratorCall).length = 1 ∧
    ((handleLoadMore s o sf).2).head? = some (.postHardwareReadings sid
      { soil_moisture_pct := sd.soil_moisture_pct,
        temperature_c := sd.temperature_c,
        humidity_pct := sd.humidity_pct,
        light_lux := sd.light_lux,
        already_generated := exclusionList s.recommendations }) ∧
    (∀ r ∈ ((handleLoadMore s o sf).2).tail, r.isGeneratorCall = false) := by
  cases o with
  | fetchError msg =>
    refine ⟨?_, ?_, ?_⟩ <;>
      simp [handleLoadMore, loadMoreBegin, loadMoreFinish, hsid, hsd,
        OutboundRequest.isGeneratorCall]
  | response status batch =>
    cases hst : statusOk status <;> cases sf <;>
      refine ⟨?_, ?_, ?_⟩ <;>
        simp [handleLoadMore, loadMoreBegin, loadMoreFinish,
          fetchSessionDetails, sessionAfterSuccess, hsid, hsd, hst,
          OutboundRequest.isGeneratorCall]

/-- C5 amended witness: instantiated on the sample state with a failing
response. -/
theorem one_generator_request_example :
    (((handleLoadMore sampleState (.response 500 []) none).2).filter OutboundRequest.isGeneratorCall).length = 1 ∧
    ((handleLoadMore sampleState (.response 500 []) none).2).head? = some (.postHardwareReadings "SENSOR001"
      { soil_moisture_pct := sampleSensor.soil_moisture_pct,
        temperature_c := sampleSensor.temperature_c,
        humidity_pct := sampleSensor.humidity_pct,
        light_lux := sampleSensor.light_lux,
        already_generated := exclusionList sampleState.recommendations }) ∧
    (∀ r ∈ ((handleLoadMore sampleState (.response 500 []) none).2).tail, r.isGeneratorCall = false) :=
  one_generator_request sampleState (.response 500 []) none "SENSOR001" sampleSensor rfl rfl

/-- C6: 404 as empty.  When the hydration GET returns status 404 the
collection state becomes the empty state (null) and the error state is
untouched: a 404 is not treated as a failure. -/
theorem status404_treated_as_empty (s : CropsPageState)
    (recs : Option (List CropRecommendation)) (i : String)
    (hid : s.id = some i) :
    (checkExistingRecommendations s (.response 404 recs)).recommendations = none ∧
    (checkExistingRecommendations s (.response 404 recs)).error = s.error := by
  constructor <;> simp [checkExistingRecommendations, hid, statusOk]

/-- C6 witness: a 404 carrying a stale body still hydrates to the empty
state on the sample page state. -/
theorem status404_treated_as_empty_example :
    (checkExistingRecommendations sampleCropsState (.response 404 (some [tomatoRec]))).recommendations = none ∧
    (checkExistingRecommendations sampleCropsState (.response 404 (some [tomatoRec]))).error = sampleCropsState.error :=
  status404_treated_as_empty sampleCropsState (some [tomatoRec]) "SENSOR001" rfl

/-- C7: Fail-fast validation.  When no complete sensor reading is
available the handler fails locally: it issues no outbound request,
records the validation message, and leaves the collection unchanged. -/
theorem missing_reading_fails_locally (s : LoadMoreState) (o : GenOutcome)
    (sf : Option SensorData) (h : s.sensorData = none) :
    (handleLoadMore s o sf).2 = [] ∧
    (handleLoadMore s o sf).1.error = some loadMoreGuardMessage ∧
    (handleLoadMore s o sf).1.recommendations = s.recommendations := by
  cases hsid : s.sensorId <;>
    refine ⟨?_, ?_, ?_⟩ <;>
      simp [handleLoadMore, loadMoreBegin, hsid, h]

/-- C7 witness: the sample state without a sensor reading issues no
request. -/
theorem missing_reading_fails_locally_example :
    (handleLoadMore noSensorState (.response 200 [okraRec]) none).2 = [] ∧
    (handleLoadMore noSensorState (.response 200 [okraRec]) none).1.error = some loadMoreGuardMessage ∧
    (handleLoadMore noSensorState (.response 200 [okraRec]) none).1.recommendations = noSensorState.recommendations :=
  missing_reading_fails_locally noSensorState (.response 200 [okraRec]) none rfl

/-- C8: Short-batch acceptance.  A successful response whose batch is
shorter than the nominal size of 8 is accepted as-is: the collection
grows by exactly the batch length, no error is recorded, and exactly
one generation request was issued (no retry). -/
theorem short_batch_accepted (s : LoadMoreState)
    (batch : List CropRecommendation) (status : Nat) (sf : Option SensorData)
    (sid : String) (sd : SensorData)
    (hsid : s.sensorId = some sid) (hsd : s.sensorData = some sd)
    (hok : statusOk status = true) (hshort : batch.length < 8) :
    ((handleLoadMore s (.response status batch) sf).1).recommendations.length
      = s.recommendations.length + batch.length ∧
    ((handleLoadMore s (.response status batch) sf).1).error = none ∧
    (((handleLoadMore s (.response status batch) sf).2).filter OutboundRequest.isGeneratorCall).length = 1 := by
  cases sf <;>
    refine ⟨?_, ?_, ?_⟩ <;>
      simp [handleLoadMore, loadMoreBegin, loadMoreFinish, fetchSessionDetails,
        sessionAfterSuccess, hsid, hsd, hok, OutboundRequest.isGeneratorCall]

/-- C8 witness: a three-entry batch against the sample state grows the
collection from two to five entries with no error. -/
theorem short_batch_accepted_example :
    ((handleLoadMore sampleState (.response 200 [okraRec, ampalayaRec, kangkongRec]) none).1).recommendations.length
      = sampleState.recommendations.length + [okraRec, ampalayaRec, kangkongRec].length ∧
    ((handleLoadMore sampleState (.response 200 [okraRec, ampalayaRec, kangkongRec]) none).1).error = none ∧
    (((handleLoadMore sampleState (.response 200 [okraRec, ampalayaRec, kangkongRec]) none).2).filter OutboundRequest.isGeneratorCall).length = 1 :=
  short_batch_accepted sampleState [okraRec, ampalayaRec, kangkongRec] 200 none
    "SENSOR001" sampleSensor rfl rfl (by decide) (by decide)

/-- C9: No single-flight guard.  Beginning a load-more marks the state
as in flight and issues a request, yet beginning a second load-more
from that in-flight state is not rejected: it issues a request as well,
and the identical one, derived from the same stale collection. -/
theorem no_single_flight_guard (s : LoadMoreState) (sid : String)
    (sd : SensorData) (hsid : s.sensorId = some sid)
    (hsd : s.sensorData = some sd) :
    (loadMoreBegin s).1.isLoadingMore = true ∧
    ((loadMoreBegin s).2).isSome = true ∧
    ((loadMoreBegin (loadMoreBegin s).1).2).isSome = true ∧
    (loadMoreBegin (loadMoreBegin s).1).2 = (loadMoreBegin s).2 := by
  refine ⟨?_, ?_, ?_, ?_⟩ <;> simp [loadMoreBegin, hsid, hsd]

/-- C9 witness: two overlapping begins on the sample state both issue
the same generation request. -/
theorem no_single_flight_guard_example :
    (loadMoreBegin sampleState).1.isLoadingMore = true ∧
    ((loadMoreBegin sampleState).2).isSome = true ∧
    ((loadMoreBegin (loadMoreBegin sampleState).1).2).isSome = true ∧
    (loadMoreBegin (loadMoreBegin sampleState).1).2 = (loadMoreBegin sampleState).2 :=
  no_single_flight_guard sampleState "SENSOR001" sampleSensor rfl rfl

/-- C10: Silent failure collapse on hydration.  For every hydration
outcome other than an ok response with a non-empty recommendations
array, the resulting state is exactly the no-recommendations-yet state:
collection null (so the form is shown), loading cleared, and the error
state untouched. -/
theorem hydration_failure_silent (s : CropsPageState) (o : FetchOutcome)
    (i : String) (hid : s.id = some i)
    (h : hydrationNonEmptySuccess o = false) :
    (checkExistingRecommendations s o).recommendations = none ∧
    (checkExistingRecommendations s o).error = s.error ∧
    (checkExistingRecommendations s o).isLoading = false := by
  cases o with
  | fetchError msg =>
    refine ⟨?_, ?_, ?_⟩ <;> simp [checkExistingRecommendations, hid]
  | response status recs =>
    cases hst : statusOk status with
    | false =>
      cases h404 : status == 404 <;>
        refine ⟨?_, ?_, ?_⟩ <;>
          simp [checkExistingRecommendations, hid, hst, h404]
    | true =>
      cases recs with
      | none =>
        refine ⟨?_, ?_, ?_⟩ <;> simp [checkExistingRecommendations, hid, hst]
      | some l =>
        have hl : ¬ l.length > 0 := by
          simpa [hydrationNonEmptySuccess, hst] using h
        refine ⟨?_, ?_, ?_⟩ <;>
          simp [checkExistingRecommendations, hid, hst, hl]

/-- C10 witness: a 500 response that even carries a body collapses to
the empty state with no visible error. -/
theorem hydration_failure_silent_example :
    (checkExistingRecommendations sampleCropsState (.response 500 (some [tomatoRec]))).recommendations = none ∧
    (checkExistingRecommendations sampleCropsState (.response 500 (some [tomatoRec]))).error = sampleCropsState.error ∧
    (checkExistingRecommendations sampleCropsState (.response 500 (some [tomatoRec]))).isLoading = false :=
  hydration_failure_silent sampleCropsState (.response 500 (some [tomatoRec]))
    "SENSOR001" rfl (by decide)

end Piliseed
